import Mathlib

/-!
# Verification of the course-search query-and-ranking layer

Shallow embedding of the query tools of the `azure-functions-mcp-managed-id`
repository and proofs of the specification's claims about them.

Embedded source files:
* `functions/mcpTriggers/course_search_mcp.py` (predicate-strategy search),
* `triggers/courses.py` (scan-strategy fuzzy search),
* `functions/mcpTriggers/user_query_mcp.py` (get-by-ids),
* `functions/mcpTriggers/survey_query_mcp.py` (survey query).

Modelling conventions:
* Python strings are `List Char` (one entry per code point, as `len`/slicing
  count them); Python numbers are exact (`ℤ`/`ℚ`), abstracting IEEE floats.
* A JSON-ish Python value is `PyVal`; argument maps and Cosmos documents are
  association lists `PyDict`.
* The Cosmos container is modelled as the list of documents its query returns,
  in fetch order.  The search tools re-check every predicate client-side, so
  the claims hold for an arbitrary returned stream.
* An uncaught Python exception is `PyOut.raised`; errors-as-values (the
  `build_error` envelopes) stay inside the `ok` payload.
* `build_error`'s random `traceId`, the echoed SQL text, and logging are
  omitted: no claim mentions them.
-/

/-- The subset of Python values handled by the tools' argument parsing and
documents. -/
inductive PyVal where
  | none
  | bool (b : Bool)
  | int (n : ℤ)
  | float (q : ℚ)
  | str (s : List Char)
  deriving DecidableEq

/-- Python truthiness for `PyVal` (`bool(x)`), as used by `x or y`. -/
def PyVal.truthy : PyVal → Bool
  | .none => false
  | .bool b => b
  | .int n => decide (n ≠ 0)
  | .float q => decide (q ≠ 0)
  | .str s => decide (s ≠ [])

/-- A Python dict with string keys: argument maps and Cosmos documents. -/
abbrev PyDict := List (String × PyVal)

/-- `d.get(k)`: first binding of `k`, `None` when absent. -/
def dictGet (d : PyDict) (k : String) : PyVal :=
  match d.find? (fun p => p.1 == k) with
  | some p => p.2
  | Option.none => .none

/-- Python `a or b`. -/
def pyOr (a b : PyVal) : PyVal := if a.truthy then a else b

/-- The whitespace stripped by `str.strip()` (the code points occurring in
this code base; a subset of Python's Unicode whitespace). -/
def pyIsSpace (c : Char) : Bool :=
  c = ' ' || c = '\t' || c = '\n' || c = '\r' || c = '\x0b' || c = '\x0c' || c = '　'

/-- Python `s.strip()`. -/
def pyStrip (s : List Char) : List Char :=
  ((s.dropWhile pyIsSpace).reverse.dropWhile pyIsSpace).reverse

/-- Python `s.lower()`.  `Char.toLower` lowercases ASCII letters and keeps
everything else (in particular Japanese text) unchanged. -/
def pyLower (s : List Char) : List Char := s.map Char.toLower

/-- Python substring containment `needle in hay`. -/
def subIn (needle : List Char) : List Char → Bool
  | [] => needle.isEmpty
  | c :: rest => needle.isPrefixOf (c :: rest) || subIn needle rest

/-- `subIn` decides contiguous-sublist (substring) containment. -/
theorem subIn_spec (needle hay : List Char) :
    subIn needle hay = true ↔ needle <:+: hay := by
  induction hay with
  | nil =>
    simp only [subIn, List.isEmpty_iff, List.infix_nil]
  | cons c rest ih =>
    simp only [subIn, Bool.or_eq_true, ih, List.infix_cons_iff,
      List.isPrefixOf_iff_prefix]

/-- Numeric value of a nonempty all-digit string. -/
def digitsVal? (s : List Char) : Option ℕ :=
  if s = [] then Option.none
  else if s.all (fun c => decide ('0' ≤ c) && decide (c ≤ '9')) then
    some (s.foldl (fun a c => 10 * a + (c.toNat - 48)) 0)
  else Option.none

/-- Python `int(s)` on a string: optional surrounding whitespace, optional
sign, decimal digits.  (Python 3 additionally accepts underscore grouping,
which this code base never passes; on every other input `int` raises.) -/
def pyIntOfStr (s : List Char) : Option ℤ :=
  match pyStrip s with
  | '-' :: rest => (digitsVal? rest).map (fun n => -(n : ℤ))
  | '+' :: rest => (digitsVal? rest).map (fun n => (n : ℤ))
  | t => (digitsVal? t).map (fun n => (n : ℤ))

/-- Python `int(x)`: `some` is the value, `Option.none` a raised
`TypeError`/`ValueError`. -/
def pyIntCoerce : PyVal → Option ℤ
  | .int n => some n
  | .bool b => some (if b then 1 else 0)
  | .float q => some (Int.tdiv q.num (q.den : ℤ))
  | .str s => pyIntOfStr s
  | .none => Option.none

/-- Value of `w.f` as a rational, both parts optional digit strings
(not both empty). -/
def pyDecVal? (s : List Char) : Option ℚ :=
  match s.splitOn '.' with
  | [w] => (digitsVal? w).map (fun n => (n : ℚ))
  | [w, f] =>
    if w = [] && f = [] then Option.none
    else
      match (if w = [] then some 0 else digitsVal? w),
            (if f = [] then some 0 else digitsVal? f) with
      | some wn, some fn => some ((wn : ℚ) + (fn : ℚ) / ((10 ^ f.length : ℕ) : ℚ))
      | _, _ => Option.none
  | _ => Option.none

/-- Python `float(s)` on a string (decimal forms used here; exponent and
inf/nan forms never occur in this code base). -/
def pyFloatOfStr (s : List Char) : Option ℚ :=
  match pyStrip s with
  | '-' :: rest => (pyDecVal? rest).map (fun q => -q)
  | '+' :: rest => pyDecVal? rest
  | t => pyDecVal? t

/-- Python `float(x)`: `some` is the value, `Option.none` a raised error. -/
def pyFloatCoerce : PyVal → Option ℚ
  | .float q => some q
  | .int n => some (n : ℚ)
  | .bool b => some (if b then 1 else 0)
  | .str s => pyFloatOfStr s
  | .none => Option.none

/-- `_tokenize` (course_search_mcp.py:34): replace full-width spaces by
ASCII spaces, split on the ASCII space, drop empty pieces. -/
def pyTokenize (term : List Char) : List (List Char) :=
  ((term.map (fun c => if c = '　' then ' ' else c)).splitOn ' ').filter
    (fun t => decide (t ≠ []))

/-- Python `round(q, 4)` on an exact rational, i.e. the nearest multiple of
`1/10000` (half rounded up; Python's banker's tie-break never matters in the
claims).  Written with integer floor division so that it evaluates. -/
def round4 (q : ℚ) : ℚ :=
  (((20000 * q.num + (q.den : ℤ)) / (2 * (q.den : ℤ)) : ℤ) : ℚ) / 10000

/-- `round4` agrees with Mathlib's `round` scaled by `10000`. -/
theorem round4_eq (q : ℚ) : round4 q = ((round (q * 10000) : ℤ) : ℚ) / 10000 := by
  have hden : ((q.den : ℚ)) ≠ 0 := by
    exact_mod_cast q.den_ne_zero
  have harg : q * 10000 + 1 / 2 =
      (((20000 * q.num + (q.den : ℤ)) : ℤ) : ℚ) / (((2 * q.den : ℕ)) : ℚ) := by
    rw [show ((20000 * q.num + (q.den : ℤ) : ℤ) : ℚ)
        = 20000 * (q.num : ℚ) + (q.den : ℚ) by push_cast; ring]
    rw [show (((2 * q.den : ℕ)) : ℚ) = 2 * (q.den : ℚ) by push_cast; ring]
    have hq : (q.num : ℚ) = q * (q.den : ℚ) := (div_eq_iff hden).mp (Rat.num_div_den q)
    rw [eq_div_iff (by positivity), hq]; ring
  rw [round_eq, harg, Rat.floor_intCast_div_natCast, round4]
  norm_num

/-! ## Predicate-strategy search (`functions/mcpTriggers/course_search_mcp.py`) -/

/-- One entry of the `results` list built by `_search_field`
(course_search_mcp.py:90-96; `triggers/courses.py:91-97` builds the same
fields). -/
structure SearchHit where
  id : PyVal
  score : ℚ
  fieldValue : List Char
  snippet : List Char
  doc : PyDict

/-- The comparison realised by `results.sort(key=lambda x: x["score"],
reverse=True)`: `a` may precede `b` iff `b`'s score is not larger. -/
def hitLE (a b : SearchHit) : Prop := b.score ≤ a.score

instance : DecidableRel hitLE :=
  fun a b => inferInstanceAs (Decidable (b.score ≤ a.score))

instance : IsTotal SearchHit hitLE := ⟨fun a b => le_total b.score a.score⟩

instance : IsTrans SearchHit hitLE := ⟨fun _ _ _ h1 h2 => le_trans h2 h1⟩

instance : Inhabited SearchHit := ⟨⟨.none, 0, [], [], []⟩⟩

/-- Python's stable descending sort (`list.sort(key=..., reverse=True)`),
realised by insertion sort, which is stable for `hitLE`. -/
def pySortByScoreDesc (l : List SearchHit) : List SearchHit :=
  List.insertionSort hitLE l

/-- Python slice `l[:n]` with an `int` bound (a negative `n` counts from the
end). -/
def pySliceTo (n : ℤ) (l : List SearchHit) : List SearchHit :=
  if 0 ≤ n then l.take n.toNat else l.take (l.length - (-n).toNat)

/-- The fetch loop `for doc in ...: items.append(doc); if len(items) >= cap:
break` — the cap is tested after each append, so a cap `≤ 0` still lets one
document through. -/
def fetchCap (cap : ℤ) (store : List PyDict) : List PyDict :=
  if cap ≤ 0 then store.take 1 else store.take cap.toNat

/-- Scoring of one fetched document (course_search_mcp.py:79-96): skip
non-string field values, re-check that every token occurs (the "保険" filter),
then `score = round(token_hits/max(len(tokens),1) * 0.7 + length_bonus * 0.3,
4)` with `length_bonus = min(len(term)/max(len(val),1), 1.0)`. -/
def scoreDoc (field : String) (term : List Char) (tokens : List (List Char))
    (d : PyDict) : Option SearchHit :=
  match dictGet d field with
  | .str val =>
    let lv := pyLower val
    if tokens.all (fun tok => subIn tok lv) then
      let tokenHits : ℕ := (tokens.filter (fun tok => subIn tok lv)).length
      let lengthBonus : ℚ := min ((term.length : ℚ) / ((max val.length 1 : ℕ) : ℚ)) 1
      some { id := dictGet d "id"
             score := round4 ((tokenHits : ℚ) / ((max tokens.length 1 : ℕ) : ℚ) * (7/10)
               + lengthBonus * (3/10))
             fieldValue := val
             snippet := val.take 120 ++ (if 120 < val.length then "...".data else [])
             doc := d }
    else Option.none
  | _ => Option.none

/-- The candidates surviving `_search_field`'s client-side filter, in fetch
order. -/
def searchSurvivors (field : String) (term : List Char) (items : List PyDict) :
    List SearchHit :=
  items.filterMap (scoreDoc field term (pyTokenize (pyLower term)))

/-- The success payload of `_search_field` (course_search_mcp.py:100-108). -/
structure SearchOk where
  query : List Char
  field : String
  tokens : List (List Char)
  matched : ℕ
  topK : ℤ
  results : List SearchHit

/-- Ranking and truncation of `_search_field` (course_search_mcp.py:77-108),
applied to the fetched items. -/
def searchCore (field : String) (term : List Char) (topK : ℤ)
    (items : List PyDict) : SearchOk :=
  let trimmed := pySliceTo topK (pySortByScoreDesc (searchSurvivors field term items))
  { query := term
    field := field
    tokens := pyTokenize (pyLower term)
    matched := trimmed.length
    topK := topK
    results := trimmed }

/-- A `build_error` payload (error message, the `"type"` kind when the map
carries one). -/
structure ErrEnvelope where
  error : List Char
  typeKind : Option String
  details : Option (List Char)
  deriving DecidableEq

/-- Outcome of running a Python entry point: a returned value or an uncaught
exception. -/
inductive PyOut (ρ : Type) where
  | ok (r : ρ)
  | raised

/-- Response union of `_search_field`. -/
inductive SearchResp where
  | err (e : ErrEnvelope)
  | ok (r : SearchOk)

/-- Full `_search_field` entry point (course_search_mcp.py:50-108) on parsed
arguments.  The second component records whether the document store was
touched (`_init_cosmos`/query); the store itself is modelled as the document
stream the Cosmos query returns.  Note that the `int(...)` coercion of `topK`
(line 56) and the `.strip()` call (line 53) sit outside every `try` block, so
their failures surface as `PyOut.raised`. -/
def searchFieldEntry (field : String) (args : PyDict) (store : List PyDict) :
    PyOut (SearchResp × Bool) :=
  match pyOr (dictGet args "searchTerm") (pyOr (dictGet args "raw") (.str [])) with
  | .str s =>
    let term := pyStrip s
    if term = [] then
      .ok (.err ⟨"searchTerm は必須です".data, some "ValidationError", Option.none⟩, false)
    else
      match pyIntCoerce (pyOr (dictGet args "topK") (.int 5)) with
      | some topK =>
        .ok (.ok (searchCore field term topK (fetchCap (topK * 3) store)), true)
      | Option.none => .raised
  | _ => .raised

/-- Number of results of a successful search response (`Option.none` for an
error envelope or a raised exception): an observation of one concrete run. -/
def searchRespResultCount : PyOut (SearchResp × Bool) → Option ℕ
  | .ok (.ok r, _) => some r.results.length
  | _ => Option.none

/-! ## Scan-strategy fuzzy search (`triggers/courses.py`) -/

/-- `_score` (courses.py:69-74): `0.0` if either side is empty, `1.0` on
literal containment, otherwise `SequenceMatcher(...).ratio()`.  The
`difflib` alignment similarity is abstracted as the oracle `sim`; the spec
only promises it lies in `[0, 1]`. -/
def scoreScan (sim : List Char → List Char → ℚ) (a b : List Char) : ℚ :=
  if a = [] then 0
  else if b = [] then 0
  else if subIn a b then 1
  else sim a b

/-- Success payload of `_fuzzy_search` (courses.py:99-107). -/
structure FuzzyOk where
  query : List Char
  field : String
  topK : ℤ
  maxScan : ℤ
  minScore : ℚ
  matched : ℕ
  results : List SearchHit

/-- Candidates kept by `_fuzzy_search`'s loop (courses.py:81-97), in fetch
order: skip non-string values, score, keep those with `s >= min_score`;
the stored score is `round(s, 4)` while the filter sees the raw `s`. -/
def fuzzySurvivors (sim : List Char → List Char → ℚ) (field : String)
    (termNorm : List Char) (minScore : ℚ) (docs : List PyDict) : List SearchHit :=
  docs.filterMap (fun d =>
    match dictGet d field with
    | .str val =>
      let vNorm := pyLower val
      let s := scoreScan sim termNorm vNorm
      if minScore ≤ s then
        some { id := dictGet d "id"
               score := round4 s
               fieldValue := val
               snippet := val.take 120 ++ (if 120 < val.length then "...".data else [])
               doc := d }
      else Option.none
    | _ => Option.none)

/-- `_fuzzy_search` (courses.py:77-107): fetch up to `max_scan` documents,
score and filter, sort descending, truncate to `top_k`. -/
def fuzzySearch (sim : List Char → List Char → ℚ) (field : String)
    (term : List Char) (topK maxScan : ℤ) (minScore : ℚ)
    (store : List PyDict) : FuzzyOk :=
  let termNorm := pyLower (pyStrip term)
  let scored := fuzzySurvivors sim field termNorm minScore (fetchCap maxScan store)
  let sorted := pySortByScoreDesc scored
  { query := term
    field := field
    topK := topK
    maxScan := maxScan
    minScore := minScore
    matched := (pySliceTo topK sorted).length
    results := pySliceTo topK sorted }

/-- Response union of the legacy `_handler` (courses.py:153-182): its error
returns are plain `{"error": ...}` maps with no `"type"` key (`typeKind` is
`Option.none`). -/
inductive FuzzyResp where
  | err (e : ErrEnvelope)
  | ok (r : FuzzyOk)

/-- The legacy search trigger `_handler` (courses.py:153-182) on parsed
arguments.  The flag records whether the store was touched.  The `int`/`float`
coercions of `topK`/`maxScan`/`minScore` (lines 174-176) run outside both
`try` blocks, so their failures surface as `PyOut.raised`. -/
def legacyHandler (sim : List Char → List Char → ℚ) (field : String)
    (args : PyDict) (store : List PyDict) : PyOut (FuzzyResp × Bool) :=
  match pyOr (dictGet args "searchTerm") (.str []) with
  | .str s =>
    let term := pyStrip s
    if term = [] then
      .ok (.err ⟨"searchTerm は必須です".data, Option.none, Option.none⟩, false)
    else
      match pyIntCoerce (pyOr (dictGet args "topK") (.int 5)),
            pyIntCoerce (pyOr (dictGet args "maxScan") (.int 200)),
            pyFloatCoerce (pyOr (dictGet args "minScore") (.float (2/5))) with
      | some topK, some maxScan, some minScore =>
        .ok (.ok (fuzzySearch sim field term topK maxScan minScore store), true)
      | _, _, _ => .raised
  | _ => .raised

/-! ## Get-by-ids (`functions/mcpTriggers/user_query_mcp.py`) -/

/-- `_normalize_ids` (user_query_mcp.py:44-57): non-strings become `[]`;
a string is stripped, newlines become commas, the string is split on commas,
pieces are stripped and empty pieces dropped. -/
def normalizeIds : PyVal → List (List Char)
  | .str s =>
    let t := pyStrip s
    if t = [] then []
    else (((t.map (fun c => if c = '\n' then ',' else c)).splitOn ',').map pyStrip).filter
      (fun p => decide (p ≠ []))
  | _ => []

/-- Response union of `get_users_by_ids_mcp`: the empty-ids usage hint
(count 0, empty results, an example payload — not an error), or the result
map `{"requested", "count", "missingIds", "results"}`. -/
inductive UsersResp where
  | usage (count : ℕ) (results : List PyDict) (info usageExample : List Char)
  | ok (requested count : ℕ) (missingIds : List (List Char)) (results : List PyDict)

/-- `get_users_by_ids_mcp` (user_query_mcp.py:60-102).  The store is the
`users` container; the Cosmos query `ARRAY_CONTAINS(@ids, c.id)` keeps the
documents whose `id` equals one of the requested ids, the fetch loop stops
once `len(ids)` documents arrived, and `missingIds` is recomputed client-side
from the fetched documents.  The whole body is wrapped in `try/except`, so
this entry point never raises. -/
def getUsersByIds (args : PyDict) (store : List PyDict) : UsersResp :=
  let ids := normalizeIds (dictGet args "userIds")
  if ids = [] then
    .usage 0 [] "userIds にカンマ区切り文字列を指定してください (例: id1,id2,id3)".data
      "id1,id2,id3".data
  else
    let items := (store.filter
      (fun d => decide (dictGet d "id" ∈ ids.map PyVal.str))).take ids.length
    let foundIds := items.map (fun d => dictGet d "id")
    let missing := ids.filter (fun i => decide (PyVal.str i ∉ foundIds))
    .ok ids.length items.length missing items

/-! ## Survey query (`functions/mcpTriggers/survey_query_mcp.py`) -/

/-- Response union of `query_surveys_mcp`: usage hints (count 0, empty
results, example payloads — not errors; `raw` echoes the raw argument when the
help was triggered by an unparsed plain string, else it is `PyVal.none` for
the absent key), a `build_error` envelope, or the result map. -/
inductive SurveyResp where
  | usage (count : ℕ) (results : List PyDict) (info : List Char)
      (usageExamples : List (List Char)) (raw : PyVal)
  | err (e : ErrEnvelope)
  | ok (mode : String) (id : List Char) (count : ℕ) (results : List PyDict)

/-- `query_surveys_mcp` (survey_query_mcp.py:39-113) on parsed arguments.
`courseId`/`userId` selection and the `topK` coercion (lines 49-51) run
before any branching and outside every `try` block, so a truthy non-string
id or a truthy non-numeric `topK` surfaces as `PyOut.raised`. -/
def querySurveys (args : PyDict) (store : List PyDict) : PyOut SurveyResp :=
  match pyOr (dictGet args "courseId") (.str []),
        pyOr (dictGet args "userId") (.str []) with
  | .str cs, .str us =>
    let courseId := pyStrip cs
    let userId := pyStrip us
    match pyIntCoerce (pyOr (dictGet args "topK") (.int 20)) with
    | some topK =>
      if courseId = [] ∧ userId = [] ∧ (dictGet args "raw").truthy then
        .ok (.usage 0 [] "courseId か userId を JSON で指定してください".data
          ["courseId: <course-id>".data, "userId: <user-id>".data]
          (dictGet args "raw"))
      else if courseId ≠ [] ∧ userId ≠ [] then
        .ok (.err ⟨"courseId と userId は同時指定できません".data,
          some "ValidationError", Option.none⟩)
      else if courseId = [] ∧ userId = [] then
        .ok (.usage 0 [] "courseId か userId のいずれかを指定するとアンケートを取得します".data
          ["courseId: <course-id>".data, "userId: <user-id>".data]
          PyVal.none)
      else
        let targetId := if courseId ≠ [] then courseId else userId
        let key := if courseId ≠ [] then "courseId" else "userId"
        let items := fetchCap topK
          (store.filter (fun d => decide (dictGet d key = .str targetId)))
        .ok (.ok key targetId items.length items)
    | Option.none => .raised
  | _, _ => .raised

/-! ## Shared lemmas -/

/-- `round` on `ℚ` is monotone. -/
theorem round_rat_mono {x y : ℚ} (h : x ≤ y) : round x ≤ round y := by
  rw [round_eq, round_eq]
  exact Int.floor_le_floor (by linarith)

/-- Rounding to four places cannot drop below a bound that is itself a
multiple of `1/10000`. -/
theorem round4_le_of_le {q : ℚ} {k : ℤ} (h : (k : ℚ) / 10000 ≤ q) :
    (k : ℚ) / 10000 ≤ round4 q := by
  rw [round4_eq]
  have h1 : (k : ℚ) ≤ q * 10000 := by
    rw [div_le_iff₀ (by norm_num)] at h
    linarith
  have h2 : k ≤ round (q * 10000) := by
    calc k = round ((k : ℚ)) := (round_intCast k).symm
    _ ≤ round (q * 10000) := round_rat_mono h1
  rw [div_le_div_iff_of_pos_right (by norm_num)]
  exact_mod_cast h2

/-- `round4` stays within `[0, 1]` on `[0, 1]`. -/
theorem round4_mem_unit {q : ℚ} (h0 : 0 ≤ q) (h1 : q ≤ 1) :
    0 ≤ round4 q ∧ round4 q ≤ 1 := by
  constructor
  · have := round4_le_of_le (q := q) (k := 0) (by simpa using h0)
    simpa using this
  · rw [round4_eq]
    have h2 : round (q * 10000) ≤ 10000 := by
      calc round (q * 10000) ≤ round ((10000 : ℤ) : ℚ) := round_rat_mono (by push_cast; linarith)
      _ = 10000 := round_intCast 10000
    rw [div_le_one (by norm_num)]
    exact_mod_cast h2

/-- `round(1.0, 4) = 1.0`. -/
theorem round4_one : round4 1 = 1 := by
  rw [round4_eq]
  norm_num

/-- A slice `l[:n]` is a sublist of `l`. -/
theorem pySliceTo_sublist (n : ℤ) (l : List SearchHit) : (pySliceTo n l).Sublist l := by
  unfold pySliceTo
  split
  · exact List.take_sublist _ _
  · exact List.take_sublist _ _

/-- Length of a slice `l[:n]` for a non-negative bound. -/
theorem pySliceTo_length {n : ℤ} (h : 0 ≤ n) (l : List SearchHit) :
    (pySliceTo n l).length = min l.length n.toNat := by
  unfold pySliceTo
  rw [if_pos h, List.length_take, Nat.min_comm]

/-- The stable sort permutes its input. -/
theorem pySortByScoreDesc_perm (l : List SearchHit) :
    (pySortByScoreDesc l).Perm l :=
  List.perm_insertionSort hitLE l

/-- The stable sort output is pairwise non-increasing in score. -/
theorem pySortByScoreDesc_pairwise (l : List SearchHit) :
    List.Pairwise (fun a b => b.score ≤ a.score) (pySortByScoreDesc l) :=
  List.sorted_insertionSort hitLE l

/-- Inversion of `scoreDoc`: every produced hit records the document's string
field value, passes the all-tokens filter, and carries exactly the code's
score and snippet. -/
theorem scoreDoc_eq_some {field : String} {term : List Char}
    {tokens : List (List Char)} {d : PyDict} {hit : SearchHit}
    (h : scoreDoc field term tokens d = some hit) :
    dictGet d field = .str hit.fieldValue
    ∧ tokens.all (fun tok => subIn tok (pyLower hit.fieldValue)) = true
    ∧ hit.score = round4
        (((tokens.filter (fun tok => subIn tok (pyLower hit.fieldValue))).length : ℚ)
            / ((max tokens.length 1 : ℕ) : ℚ) * (7/10)
          + min ((term.length : ℚ) / ((max hit.fieldValue.length 1 : ℕ) : ℚ)) 1 * (3/10))
    ∧ hit.snippet = hit.fieldValue.take 120
        ++ (if 120 < hit.fieldValue.length then "...".data else []) := by
  unfold scoreDoc at h
  cases hv : dictGet d field with
  | str val =>
    rw [hv] at h
    simp only at h
    by_cases hall : tokens.all (fun tok => subIn tok (pyLower val)) = true
    · rw [if_pos hall] at h
      cases h
      exact ⟨rfl, hall, rfl, rfl⟩
    · rw [if_neg hall] at h
      cases h
  | none => rw [hv] at h; cases h
  | bool b => rw [hv] at h; cases h
  | int n => rw [hv] at h; cases h
  | float q => rw [hv] at h; cases h

/-- Every returned hit of the predicate strategy comes from a fetched document
via `scoreDoc`. -/
theorem mem_searchCore_results {field : String} {term : List Char} {topK : ℤ}
    {items : List PyDict} {hit : SearchHit}
    (h : hit ∈ (searchCore field term topK items).results) :
    ∃ d ∈ items, scoreDoc field term (pyTokenize (pyLower term)) d = some hit := by
  have h1 : hit ∈ pySortByScoreDesc (searchSurvivors field term items) :=
    (pySliceTo_sublist _ _).mem h
  have h2 : hit ∈ searchSurvivors field term items :=
    (pySortByScoreDesc_perm _).mem_iff.mp h1
  rw [searchSurvivors, List.mem_filterMap] at h2
  obtain ⟨d, hd, hs⟩ := h2
  exact ⟨d, hd, hs⟩

/-- Inversion of the scan-strategy loop body: every kept candidate passed the
raw-score filter and stores the rounded score and the snippet. -/
theorem mem_fuzzySurvivors {sim : List Char → List Char → ℚ} {field : String}
    {termNorm : List Char} {minScore : ℚ} {docs : List PyDict} {hit : SearchHit}
    (h : hit ∈ fuzzySurvivors sim field termNorm minScore docs) :
    minScore ≤ scoreScan sim termNorm (pyLower hit.fieldValue)
    ∧ hit.score = round4 (scoreScan sim termNorm (pyLower hit.fieldValue))
    ∧ hit.snippet = hit.fieldValue.take 120
        ++ (if 120 < hit.fieldValue.length then "...".data else []) := by
  rw [fuzzySurvivors, List.mem_filterMap] at h
  obtain ⟨d, _, hs⟩ := h
  cases hv : dictGet d field with
  | str val =>
    rw [hv] at hs
    simp only at hs
    by_cases hkeep : minScore ≤ scoreScan sim termNorm (pyLower val)
    · rw [if_pos hkeep] at hs
      cases hs
      exact ⟨hkeep, rfl, rfl⟩
    · rw [if_neg hkeep] at hs
      cases hs
  | none => rw [hv] at hs; cases hs
  | bool b => rw [hv] at hs; cases hs
  | int n => rw [hv] at hs; cases hs
  | float q => rw [hv] at hs; cases hs

/-- Every returned hit of the scan strategy is a surviving candidate. -/
theorem mem_fuzzySearch_results {sim : List Char → List Char → ℚ}
    {field : String} {term : List Char} {topK maxScan : ℤ} {minScore : ℚ}
    {store : List PyDict} {hit : SearchHit}
    (h : hit ∈ (fuzzySearch sim field term topK maxScan minScore store).results) :
    hit ∈ fuzzySurvivors sim field (pyLower (pyStrip term)) minScore
      (fetchCap maxScan store) := by
  have h1 : hit ∈ pySortByScoreDesc (fuzzySurvivors sim field (pyLower (pyStrip term))
      minScore (fetchCap maxScan store)) :=
    (pySliceTo_sublist _ _).mem h
  exact (pySortByScoreDesc_perm _).mem_iff.mp h1

/-- Unfolding lemma for the predicate strategy's result list. -/
theorem searchCore_results (field : String) (term : List Char) (topK : ℤ)
    (items : List PyDict) :
    (searchCore field term topK items).results
      = pySliceTo topK (pySortByScoreDesc (searchSurvivors field term items)) := rfl

/-- Unfolding lemma for the predicate strategy's `matched` count. -/
theorem searchCore_matched (field : String) (term : List Char) (topK : ℤ)
    (items : List PyDict) :
    (searchCore field term topK items).matched
      = (pySliceTo topK (pySortByScoreDesc (searchSurvivors field term items))).length := rfl

/-- Unfolding lemma for the scan strategy's result list. -/
theorem fuzzySearch_results (sim : List Char → List Char → ℚ) (field : String)
    (term : List Char) (topK maxScan : ℤ) (minScore : ℚ) (store : List PyDict) :
    (fuzzySearch sim field term topK maxScan minScore store).results
      = pySliceTo topK (pySortByScoreDesc (fuzzySurvivors sim field
          (pyLower (pyStrip term)) minScore (fetchCap maxScan store))) := rfl

/-- Unfolding lemma for the scan strategy's `matched` count. -/
theorem fuzzySearch_matched (sim : List Char → List Char → ℚ) (field : String)
    (term : List Char) (topK maxScan : ℤ) (minScore : ℚ) (store : List PyDict) :
    (fuzzySearch sim field term topK maxScan minScore store).matched
      = (pySliceTo topK (pySortByScoreDesc (fuzzySurvivors sim field
          (pyLower (pyStrip term)) minScore (fetchCap maxScan store)))).length := rfl

/-! ## The claims -/

/-- C1.  Predicate-strategy scoring: every returned result's score is
`round((tokens matched / tokens total) · 0.7 + min(len(query)/len(v), 1) ·
0.3, 4)` — the token coverage being `1` whenever the query tokenizes to at
least one token — and candidates with equal scores keep their original fetch
order through the stable descending sort, whose truncation to `topK` is the
returned list. -/
theorem c1_predicate_scoring_and_stable_ties (field : String) (term : List Char)
    (topK : ℤ) (items : List PyDict) :
    (∀ hit ∈ (searchCore field term topK items).results,
        hit.score = round4
          (((pyTokenize (pyLower term)).length : ℚ)
              / ((max (pyTokenize (pyLower term)).length 1 : ℕ) : ℚ) * (7/10)
            + min ((term.length : ℚ) / ((max hit.fieldValue.length 1 : ℕ) : ℚ)) 1 * (3/10)))
    ∧ (pyTokenize (pyLower term) ≠ [] →
        ((pyTokenize (pyLower term)).length : ℚ)
            / ((max (pyTokenize (pyLower term)).length 1 : ℕ) : ℚ) = 1)
    ∧ (∀ a b : SearchHit, [a, b].Sublist (searchSurvivors field term items) →
        a.score = b.score →
        [a, b].Sublist (pySortByScoreDesc (searchSurvivors field term items)))
    ∧ (searchCore field term topK items).results
        = pySliceTo topK (pySortByScoreDesc (searchSurvivors field term items)) := by
  refine ⟨?_, ?_, ?_, rfl⟩
  · intro hit hm
    obtain ⟨d, _, hs⟩ := mem_searchCore_results hm
    obtain ⟨_, hall, hscore, _⟩ := scoreDoc_eq_some hs
    rw [hscore, List.filter_eq_self.mpr (List.all_eq_true.mp hall)]
  · intro htok
    have hn : (pyTokenize (pyLower term)).length ≠ 0 :=
      fun h => htok (List.length_eq_zero.mp h)
    rw [Nat.max_eq_left (Nat.one_le_iff_ne_zero.mpr hn)]
    exact div_self (by exact_mod_cast hn)
  · intro a b hsub heq
    exact List.pair_sublist_insertionSort (show hitLE a b from heq.ge) hsub

/-- Witness for C1 on a store of two candidates with identical field values
(hence tied scores): both survive, the score formula holds for each, and the
fetch-order pair stays a sublist of the sorted list. -/
theorem c1_witness :
    (searchSurvivors "courseName" ['a', 'b']
        [[("courseName", PyVal.str ['a', 'b']), ("id", PyVal.str ['1'])],
         [("courseName", PyVal.str ['a', 'b']), ("id", PyVal.str ['2'])]]).length = 2
    ∧ (searchCore "courseName" ['a', 'b'] 5
        [[("courseName", PyVal.str ['a', 'b']), ("id", PyVal.str ['1'])],
         [("courseName", PyVal.str ['a', 'b']), ("id", PyVal.str ['2'])]]).results.length = 2
    ∧ (searchCore "courseName" ['a', 'b'] 5
        [[("courseName", PyVal.str ['a', 'b']), ("id", PyVal.str ['1'])],
         [("courseName", PyVal.str ['a', 'b']), ("id", PyVal.str ['2'])]]).results.Forall
        (fun hit => hit.score = round4
          (((pyTokenize (pyLower ['a', 'b'])).length : ℚ)
              / ((max (pyTokenize (pyLower ['a', 'b'])).length 1 : ℕ) : ℚ) * (7/10)
            + min ((['a', 'b'].length : ℚ) / ((max hit.fieldValue.length 1 : ℕ) : ℚ)) 1
                * (3/10)))
    ∧ [(searchSurvivors "courseName" ['a', 'b']
          [[("courseName", PyVal.str ['a', 'b']), ("id", PyVal.str ['1'])],
           [("courseName", PyVal.str ['a', 'b']), ("id", PyVal.str ['2'])]]).headI,
       (searchSurvivors "courseName" ['a', 'b']
          [[("courseName", PyVal.str ['a', 'b']), ("id", PyVal.str ['1'])],
           [("courseName", PyVal.str ['a', 'b']), ("id", PyVal.str ['2'])]]).tail.headI].Sublist
        (pySortByScoreDesc (searchSurvivors "courseName" ['a', 'b']
          [[("courseName", PyVal.str ['a', 'b']), ("id", PyVal.str ['1'])],
           [("courseName", PyVal.str ['a', 'b']), ("id", PyVal.str ['2'])]])) := by
  refine ⟨by decide, ?_, ?_, ?_⟩
  · rw [(c1_predicate_scoring_and_stable_ties "courseName" ['a', 'b'] 5 _).2.2.2,
      pySliceTo_length (by norm_num), (pySortByScoreDesc_perm _).length_eq]
    decide
  · exact List.forall_iff_forall_mem.mpr
      (c1_predicate_scoring_and_stable_ties "courseName" ['a', 'b'] 5 _).1
  · exact (c1_predicate_scoring_and_stable_ties "courseName" ['a', 'b'] 5 _).2.2.1 _ _
      (List.Sublist.refl _) rfl

/-- C2.  In both strategies, a successful search returns at most `topK`
results, sorted by score in non-increasing order, and reports
`matched = min(number of surviving candidates, topK)`. -/
theorem c2_bounded_sorted_matched (sim : List Char → List Char → ℚ)
    (field : String) (term : List Char) (topK maxScan : ℤ) (minScore : ℚ)
    (items store : List PyDict) (h : 0 ≤ topK) :
    ((searchCore field term topK items).results.length ≤ topK.toNat
      ∧ List.Pairwise (fun a b => b.score ≤ a.score)
          (searchCore field term topK items).results
      ∧ (searchCore field term topK items).matched
          = min (searchSurvivors field term items).length topK.toNat)
    ∧ ((fuzzySearch sim field term topK maxScan minScore store).results.length ≤ topK.toNat
      ∧ List.Pairwise (fun a b => b.score ≤ a.score)
          (fuzzySearch sim field term topK maxScan minScore store).results
      ∧ (fuzzySearch sim field term topK maxScan minScore store).matched
          = min (fuzzySurvivors sim field (pyLower (pyStrip term)) minScore
              (fetchCap maxScan store)).length topK.toNat) := by
  refine ⟨⟨?_, ?_, ?_⟩, ?_, ?_, ?_⟩
  · rw [searchCore_results, pySliceTo_length h]
    exact Nat.min_le_right _ _
  · rw [searchCore_results]
    exact List.Pairwise.sublist (pySliceTo_sublist _ _) (pySortByScoreDesc_pairwise _)
  · rw [searchCore_matched, pySliceTo_length h, (pySortByScoreDesc_perm _).length_eq]
  · rw [fuzzySearch_results, pySliceTo_length h]
    exact Nat.min_le_right _ _
  · rw [fuzzySearch_results]
    exact List.Pairwise.sublist (pySliceTo_sublist _ _) (pySortByScoreDesc_pairwise _)
  · rw [fuzzySearch_matched, pySliceTo_length h, (pySortByScoreDesc_perm _).length_eq]

/-- Witness for C2 at `topK = 3`, `maxScan = 2`, `minScore = 0` on empty
stores. -/
theorem c2_witness :
    (((searchCore "courseName" ['a'] 3 []).results.length ≤ (3 : ℤ).toNat
      ∧ List.Pairwise (fun a b => b.score ≤ a.score)
          (searchCore "courseName" ['a'] 3 []).results
      ∧ (searchCore "courseName" ['a'] 3 []).matched
          = min (searchSurvivors "courseName" ['a'] []).length (3 : ℤ).toNat)
    ∧ ((fuzzySearch (fun _ _ => 0) "courseName" ['a'] 3 2 0 []).results.length ≤ (3 : ℤ).toNat
      ∧ List.Pairwise (fun a b => b.score ≤ a.score)
          (fuzzySearch (fun _ _ => 0) "courseName" ['a'] 3 2 0 []).results
      ∧ (fuzzySearch (fun _ _ => 0) "courseName" ['a'] 3 2 0 []).matched
          = min (fuzzySurvivors (fun _ _ => 0) "courseName" (pyLower (pyStrip ['a'])) 0
              (fetchCap 2 [])).length (3 : ℤ).toNat)) :=
  c2_bounded_sorted_matched (fun _ _ => 0) "courseName" ['a'] 3 2 0 [] [] (by decide)

/-- C3.  Predicate strategy: the lowercased field value of every returned
result contains every lowercase whitespace token of the query as a substring
(conjunctively, independent of order). -/
theorem c3_predicate_tokens_contained (field : String) (term : List Char)
    (topK : ℤ) (items : List PyDict) :
    ∀ hit ∈ (searchCore field term topK items).results,
      ∀ tok ∈ pyTokenize (pyLower term), tok <:+: pyLower hit.fieldValue := by
  intro hit hm tok htok
  obtain ⟨d, _, hs⟩ := mem_searchCore_results hm
  obtain ⟨_, hall, _, _⟩ := scoreDoc_eq_some hs
  exact (subIn_spec _ _).mp (List.all_eq_true.mp hall tok htok)

/-- Witness for C3: the two-token query `"a b"` matching the value `"ba"`
(order-independent containment), with one returned result. -/
theorem c3_witness :
    (searchCore "courseName" ['a', ' ', 'b'] 5
        [[("courseName", PyVal.str ['b', 'a'])]]).results.length = 1
    ∧ (searchCore "courseName" ['a', ' ', 'b'] 5
        [[("courseName", PyVal.str ['b', 'a'])]]).results.Forall
        (fun hit => (pyTokenize (pyLower ['a', ' ', 'b'])).Forall
          (fun tok => tok <:+: pyLower hit.fieldValue)) := by
  refine ⟨by decide, ?_⟩
  rw [List.forall_iff_forall_mem]
  intro hit hm
  rw [List.forall_iff_forall_mem]
  intro tok htok
  exact c3_predicate_tokens_contained "courseName" ['a', ' ', 'b'] 5 _ hit hm tok htok

/-- C4.  Scan strategy: with a threshold that is (like the default `0.4`) a
multiple of `1/10000`, every returned result's (rounded) score is at least
`minScore`; and the similarity of a non-empty normalized query that occurs
literally inside the field value is exactly `1.0`. -/
theorem c4_scan_minscore_and_containment (sim : List Char → List Char → ℚ)
    (field : String) (term : List Char) (topK maxScan : ℤ) (store : List PyDict)
    (minScore : ℚ) (k : ℤ) (hk : minScore * 10000 = (k : ℚ)) :
    (∀ hit ∈ (fuzzySearch sim field term topK maxScan minScore store).results,
        minScore ≤ hit.score)
    ∧ (∀ a b : List Char, a ≠ [] → subIn a b = true → scoreScan sim a b = 1) := by
  have hm : minScore = (k : ℚ) / 10000 := by
    rw [← hk, mul_div_cancel_right₀ _ (by norm_num : (10000 : ℚ) ≠ 0)]
  constructor
  · intro hit hmem
    obtain ⟨hge, hscore, _⟩ := mem_fuzzySurvivors (mem_fuzzySearch_results hmem)
    rw [hscore, hm]
    exact round4_le_of_le (hm ▸ hge)
  · intro a b ha hsub
    have hb : b ≠ [] := by
      intro hbe
      subst hbe
      simp only [subIn, List.isEmpty_iff] at hsub
      exact ha hsub
    unfold scoreScan
    rw [if_neg ha, if_neg hb, if_pos hsub]

/-- Witness for C4 at `minScore = 1.0` (`= 10000/10000`), a store whose single
course name contains the query literally, and the zero similarity oracle. -/
theorem c4_witness :
    (fuzzySurvivors (fun _ _ => 0) "courseName" (pyLower (pyStrip ['a'])) 1
        (fetchCap 200 [[("courseName", PyVal.str ['a', 'b'])]])).length = 1
    ∧ (fuzzySearch (fun _ _ => 0) "courseName" ['a'] 5 200 1
        [[("courseName", PyVal.str ['a', 'b'])]]).results.Forall
        (fun hit => (1 : ℚ) ≤ hit.score)
    ∧ scoreScan (fun _ _ => 0) ['a'] ['a', 'b'] = 1 := by
  refine ⟨by decide, ?_, ?_⟩
  · exact List.forall_iff_forall_mem.mpr
      (c4_scan_minscore_and_containment (fun _ _ => 0) "courseName" ['a'] 5 200
        [[("courseName", PyVal.str ['a', 'b'])]] 1 10000 (by norm_num)).1
  · exact (c4_scan_minscore_and_containment (fun _ _ => 0) "courseName" ['a'] 5 200
      [[("courseName", PyVal.str ['a', 'b'])]] 1 10000 (by norm_num)).2
      ['a'] ['a', 'b'] (by decide) (by decide)

/-- `scoreScan` stays in `[0, 1]` when the similarity oracle does. -/
theorem scoreScan_mem_unit {sim : List Char → List Char → ℚ}
    (hsim : ∀ a b, 0 ≤ sim a b ∧ sim a b ≤ 1) (a b : List Char) :
    0 ≤ scoreScan sim a b ∧ scoreScan sim a b ≤ 1 := by
  unfold scoreScan
  split_ifs
  · norm_num
  · norm_num
  · norm_num
  · exact hsim a b

/-- The snippet built by both strategies is at most `120 + 3` characters. -/
theorem snippet_length_le {hit : SearchHit}
    (h : hit.snippet = hit.fieldValue.take 120
        ++ (if 120 < hit.fieldValue.length then "...".data else [])) :
    hit.snippet.length ≤ 123 := by
  rw [h, List.length_append]
  have h1 : (hit.fieldValue.take 120).length ≤ 120 := by
    rw [List.length_take]
    exact Nat.min_le_left _ _
  have h2 : (if 120 < hit.fieldValue.length then "...".data else []).length ≤ 3 := by
    split
    · decide
    · decide
  omega

/-- C7.  In both strategies every returned result has `0 ≤ score ≤ 1`, its
snippet is the first 120 characters of the field value with `"..."` appended
exactly when the value is longer than 120 characters, and hence the snippet
never exceeds 123 characters. -/
theorem c7_score_range_and_snippet (sim : List Char → List Char → ℚ)
    (field : String) (term : List Char) (topK maxScan : ℤ) (minScore : ℚ)
    (items store : List PyDict)
    (hsim : ∀ a b, 0 ≤ sim a b ∧ sim a b ≤ 1) :
    (∀ hit ∈ (searchCore field term topK items).results,
        (0 ≤ hit.score ∧ hit.score ≤ 1)
        ∧ hit.snippet = hit.fieldValue.take 120
            ++ (if 120 < hit.fieldValue.length then "...".data else [])
        ∧ hit.snippet.length ≤ 123)
    ∧ (∀ hit ∈ (fuzzySearch sim field term topK maxScan minScore store).results,
        (0 ≤ hit.score ∧ hit.score ≤ 1)
        ∧ hit.snippet = hit.fieldValue.take 120
            ++ (if 120 < hit.fieldValue.length then "...".data else [])
        ∧ hit.snippet.length ≤ 123) := by
  constructor
  · intro hit hm
    obtain ⟨d, _, hs⟩ := mem_searchCore_results hm
    obtain ⟨_, _, hscore, hsnip⟩ := scoreDoc_eq_some hs
    refine ⟨?_, hsnip, snippet_length_le hsnip⟩
    rw [hscore]
    set tokens := pyTokenize (pyLower term) with htok
    have hcov0 : (0 : ℚ) ≤ ((tokens.filter
        (fun tok => subIn tok (pyLower hit.fieldValue))).length : ℚ)
        / ((max tokens.length 1 : ℕ) : ℚ) := by positivity
    have hcov1 : ((tokens.filter
        (fun tok => subIn tok (pyLower hit.fieldValue))).length : ℚ)
        / ((max tokens.length 1 : ℕ) : ℚ) ≤ 1 := by
      rw [div_le_one (by positivity)]
      exact_mod_cast le_trans (List.length_filter_le _ _) (Nat.le_max_left _ _)
    have hb0 : (0 : ℚ) ≤ min ((term.length : ℚ)
        / ((max hit.fieldValue.length 1 : ℕ) : ℚ)) 1 :=
      le_min (by positivity) (by norm_num)
    have hb1 : min ((term.length : ℚ)
        / ((max hit.fieldValue.length 1 : ℕ) : ℚ)) 1 ≤ 1 := min_le_right _ _
    exact round4_mem_unit (by nlinarith) (by nlinarith)
  · intro hit hm
    obtain ⟨_, hscore, hsnip⟩ := mem_fuzzySurvivors (mem_fuzzySearch_results hm)
    refine ⟨?_, hsnip, snippet_length_le hsnip⟩
    rw [hscore]
    obtain ⟨h0, h1⟩ := scoreScan_mem_unit hsim (pyLower (pyStrip term))
      (pyLower hit.fieldValue)
    exact round4_mem_unit h0 h1

/-- Witness for C7 on one-candidate stores for both strategies (the scan side
at `minScore = 1.0`, similarity oracle constantly `0`). -/
theorem c7_witness :
    (searchCore "courseName" ['a'] 5
        [[("courseName", PyVal.str ['a', 'b'])]]).results.length = 1
    ∧ (searchCore "courseName" ['a'] 5
        [[("courseName", PyVal.str ['a', 'b'])]]).results.Forall
        (fun hit => (0 ≤ hit.score ∧ hit.score ≤ 1)
          ∧ hit.snippet = hit.fieldValue.take 120
              ++ (if 120 < hit.fieldValue.length then "...".data else [])
          ∧ hit.snippet.length ≤ 123)
    ∧ (fuzzySearch (fun _ _ => 0) "courseName" ['a'] 5 200 1
        [[("courseName", PyVal.str ['a', 'b'])]]).results.Forall
        (fun hit => (0 ≤ hit.score ∧ hit.score ≤ 1)
          ∧ hit.snippet = hit.fieldValue.take 120
              ++ (if 120 < hit.fieldValue.length then "...".data else [])
          ∧ hit.snippet.length ≤ 123) := by
  refine ⟨by decide, ?_, ?_⟩
  · exact List.forall_iff_forall_mem.mpr
      (c7_score_range_and_snippet (fun _ _ => 0) "courseName" ['a'] 5 200 1
        [[("courseName", PyVal.str ['a', 'b'])]] [[("courseName", PyVal.str ['a', 'b'])]]
        (fun _ _ => by norm_num)).1
  · exact List.forall_iff_forall_mem.mpr
      (c7_score_range_and_snippet (fun _ _ => 0) "courseName" ['a'] 5 200 1
        [[("courseName", PyVal.str ['a', 'b'])]] [[("courseName", PyVal.str ['a', 'b'])]]
        (fun _ _ => by norm_num)).2

/-- C8.  Get-by-ids: `missingIds` is exactly the requested ids that are not
among the ids of the returned documents (hence disjoint from them), and an
empty normalized id list yields the usage hint with count 0, not an error. -/
theorem c8_missing_ids_and_empty_hint (args : PyDict) (store : List PyDict) :
    (∀ (req cnt : ℕ) (missing : List (List Char)) (found : List PyDict),
        getUsersByIds args store = .ok req cnt missing found →
        ∀ i : List Char,
          i ∈ missing ↔ (i ∈ normalizeIds (dictGet args "userIds")
            ∧ PyVal.str i ∉ found.map (fun d => dictGet d "id")))
    ∧ (normalizeIds (dictGet args "userIds") = [] →
        getUsersByIds args store
          = .usage 0 []
              "userIds にカンマ区切り文字列を指定してください (例: id1,id2,id3)".data
              "id1,id2,id3".data) := by
  constructor
  · intro req cnt missing found h i
    simp only [getUsersByIds] at h
    by_cases hids : normalizeIds (dictGet args "userIds") = []
    · rw [if_pos hids] at h
      exact UsersResp.noConfusion h
    · rw [if_neg hids] at h
      cases h
      simp [List.mem_filter]
  · intro h
    simp only [getUsersByIds]
    rw [if_pos h]

/-- Witness for C8: requested ids `"u1,u2,u3"`, store containing `u1` and
`u3` only; and an argument map without `userIds` hitting the usage hint. -/
theorem c8_witness :
    getUsersByIds [("userIds", PyVal.str "u1,u2,u3".data)]
        [[("id", PyVal.str "u1".data)], [("id", PyVal.str "u3".data)]]
      = .ok 3 2 ["u2".data]
          [[("id", PyVal.str "u1".data)], [("id", PyVal.str "u3".data)]]
    ∧ ("u2".data ∈ normalizeIds (dictGet [("userIds", PyVal.str "u1,u2,u3".data)] "userIds")
        ∧ PyVal.str "u2".data ∉
            [[("id", PyVal.str "u1".data)], [("id", PyVal.str "u3".data)]].map
              (fun d => dictGet d "id"))
    ∧ getUsersByIds [] [[("id", PyVal.str "u1".data)], [("id", PyVal.str "u3".data)]]
        = .usage 0 []
            "userIds にカンマ区切り文字列を指定してください (例: id1,id2,id3)".data
            "id1,id2,id3".data := by
  refine ⟨rfl, ?_, ?_⟩
  · exact ((c8_missing_ids_and_empty_hint [("userIds", PyVal.str "u1,u2,u3".data)]
      [[("id", PyVal.str "u1".data)], [("id", PyVal.str "u3".data)]]).1 3 2
      ["u2".data] [[("id", PyVal.str "u1".data)], [("id", PyVal.str "u3".data)]]
      rfl "u2".data).mp (by decide)
  · exact (c8_missing_ids_and_empty_hint []
      [[("id", PyVal.str "u1".data)], [("id", PyVal.str "u3".data)]]).2 (by decide)

/-- C9 counterexample: the `int(topK)` coercion (survey_query_mcp.py:51) runs
unprotected *before* the both-ids validation at line 69, so a call that
supplies both a non-empty `courseId` and a non-empty `userId` together with a
truthy non-numeric `topK` raises an uncaught ValueError instead of returning
the ValidationError envelope the claim promises for every such call. -/
theorem c9_counterexample :
    querySurveys [("courseId", PyVal.str ['c']), ("userId", PyVal.str ['u']),
        ("topK", PyVal.str ['x'])] []
      = .raised := rfl

/-- C9 (amended).  Survey query, for calls whose id values are strings and
whose `topK` coerces (it is absent, falsy, numeric, or a digit string — the
coercion precedes all validation, see the counterexample): supplying both a
non-empty `courseId` and a non-empty `userId` yields a ValidationError
envelope; supplying neither yields the non-error usage hint with example
payloads, count 0 and empty results. -/
theorem c9_survey_both_and_neither (args : PyDict) (store : List PyDict)
    (cs us : List Char) (n : ℤ)
    (hc : pyOr (dictGet args "courseId") (.str []) = .str cs)
    (hu : pyOr (dictGet args "userId") (.str []) = .str us)
    (ht : pyIntCoerce (pyOr (dictGet args "topK") (.int 20)) = some n) :
    (pyStrip cs ≠ [] → pyStrip us ≠ [] →
      querySurveys args store
        = .ok (.err ⟨"courseId と userId は同時指定できません".data,
            some "ValidationError", Option.none⟩))
    ∧ (pyStrip cs = [] → pyStrip us = [] →
      querySurveys args store
        = .ok (.usage 0 []
            (if (dictGet args "raw").truthy
              then "courseId か userId を JSON で指定してください".data
              else "courseId か userId のいずれかを指定するとアンケートを取得します".data)
            ["courseId: <course-id>".data, "userId: <user-id>".data]
            (if (dictGet args "raw").truthy then dictGet args "raw" else PyVal.none))) := by
  constructor
  · intro h1 h2
    simp only [querySurveys, hc, hu, ht]
    rw [if_neg (fun h => h1 h.1), if_pos ⟨h1, h2⟩]
  · intro h1 h2
    simp only [querySurveys, hc, hu, ht]
    by_cases hr : (dictGet args "raw").truthy = true
    · rw [if_pos ⟨h1, h2, hr⟩, if_pos hr, if_pos hr]
    · rw [if_neg (fun h => hr h.2.2), if_neg (fun h => h.1 h1), if_pos ⟨h1, h2⟩,
        if_neg hr, if_neg hr]

/-- Witness for C9: both ids supplied → ValidationError; neither supplied →
usage hint. -/
theorem c9_witness :
    querySurveys [("courseId", PyVal.str ['c']), ("userId", PyVal.str ['u'])] []
      = .ok (.err ⟨"courseId と userId は同時指定できません".data,
          some "ValidationError", Option.none⟩)
    ∧ querySurveys [] []
      = .ok (.usage 0 []
          "courseId か userId のいずれかを指定するとアンケートを取得します".data
          ["courseId: <course-id>".data, "userId: <user-id>".data]
          PyVal.none) := by
  constructor
  · exact (c9_survey_both_and_neither
      [("courseId", PyVal.str ['c']), ("userId", PyVal.str ['u'])] [] ['c'] ['u'] 20
      rfl rfl rfl).1 (by decide) (by decide)
  · have h := (c9_survey_both_and_neither [] [] [] [] 20 rfl rfl rfl).2 rfl rfl
    simpa [dictGet, PyVal.truthy] using h

/-- C5 counterexample: on the whitespace-only query the legacy scan search
tool returns the plain map `{"error": "searchTerm は必須です"}` — an error
with **no** `"type": "ValidationError"` key — so "returns a ValidationError
envelope" fails for this search tool (the store is still untouched). -/
theorem c5_counterexample :
    legacyHandler (fun _ _ => 0) "courseName" [("searchTerm", PyVal.str [' '])] []
      = .ok (.err ⟨"searchTerm は必須です".data, Option.none, Option.none⟩, false)
    ∧ (Option.none : Option String) ≠ some "ValidationError" := ⟨rfl, by decide⟩

/-- C5 (amended): a query that is empty or whitespace-only after trimming
short-circuits both search tools before any store access: the MCP tool
returns the ValidationError-typed envelope, the legacy scan tool a plain
error map without a `"type"` key; in both the store flag stays `false`. -/
theorem c5_empty_query_no_store (sim : List Char → List Char → ℚ)
    (field : String) (args : PyDict) (store : List PyDict) (s1 s2 : List Char)
    (h1 : pyOr (dictGet args "searchTerm") (pyOr (dictGet args "raw") (.str []))
        = .str s1)
    (h2 : pyStrip s1 = [])
    (h3 : pyOr (dictGet args "searchTerm") (.str []) = .str s2)
    (h4 : pyStrip s2 = []) :
    searchFieldEntry field args store
      = .ok (.err ⟨"searchTerm は必須です".data, some "ValidationError", Option.none⟩,
          false)
    ∧ legacyHandler sim field args store
      = .ok (.err ⟨"searchTerm は必須です".data, Option.none, Option.none⟩, false) := by
  constructor
  · simp [searchFieldEntry, h1, h2]
  · simp [legacyHandler, h3, h4]

/-- Witness for C5 on the whitespace-only query `" "`. -/
theorem c5_witness :
    searchFieldEntry "courseName" [("searchTerm", PyVal.str [' '])] []
      = .ok (.err ⟨"searchTerm は必須です".data, some "ValidationError", Option.none⟩,
          false)
    ∧ legacyHandler (fun _ _ => 0) "courseName" [("searchTerm", PyVal.str [' '])] []
      = .ok (.err ⟨"searchTerm は必須です".data, Option.none, Option.none⟩, false) :=
  c5_empty_query_no_store (fun _ _ => 0) "courseName"
    [("searchTerm", PyVal.str [' '])] [] [' '] [' '] rfl rfl rfl rfl

/-- C6 counterexample: a truthy non-numeric `topK` reaches the `int(...)`
coercion of the search and survey entry points **outside** every `try`
block, so the exception escapes uncaught instead of being coerced to the
default 5 or wrapped in an error envelope. -/
theorem c6_counterexample :
    searchFieldEntry "courseName"
        [("searchTerm", PyVal.str ['a']), ("topK", PyVal.str ['a', 'b', 'c'])] []
      = .raised
    ∧ querySurveys [("courseId", PyVal.str ['c']), ("topK", PyVal.str ['x'])] []
      = .raised := ⟨rfl, rfl⟩

/-- C6 (amended): when the selected search term is a string and `topK`
coerces (it is absent, falsy, numeric, or a digit string), the search entry
point returns a structured result or error map and raises nothing; an absent
or falsy `topK` coerces to the default 5. -/
theorem c6_no_escape_when_coercible (field : String) (args : PyDict)
    (store : List PyDict) (s : List Char) (n : ℤ)
    (h1 : pyOr (dictGet args "searchTerm") (pyOr (dictGet args "raw") (.str []))
        = .str s)
    (h2 : pyIntCoerce (pyOr (dictGet args "topK") (.int 5)) = some n) :
    searchFieldEntry field args store ≠ .raised
    ∧ ((dictGet args "topK").truthy = false →
        pyIntCoerce (pyOr (dictGet args "topK") (.int 5)) = some 5) := by
  constructor
  · simp only [searchFieldEntry, h1]
    by_cases hterm : pyStrip s = []
    · rw [if_pos hterm]
      exact fun h => PyOut.noConfusion h
    · rw [if_neg hterm, h2]
      exact fun h => PyOut.noConfusion h
  · intro ht
    simp [pyOr, ht, pyIntCoerce]

/-- Witness for C6 (amended): a plain string query with `topK` absent. -/
theorem c6_witness :
    searchFieldEntry "courseName" [("searchTerm", PyVal.str ['a'])] [] ≠ PyOut.raised
    ∧ pyIntCoerce (pyOr (dictGet [("searchTerm", PyVal.str ['a'])] "topK") (.int 5))
        = some 5 :=
  ⟨(c6_no_escape_when_coercible "courseName" [("searchTerm", PyVal.str ['a'])] []
      ['a'] 5 rfl rfl).1,
   (c6_no_escape_when_coercible "courseName" [("searchTerm", PyVal.str ['a'])] []
      ['a'] 5 rfl rfl).2 rfl⟩

/-- C10 counterexample: the caller-supplied *string* `"0"` is truthy, so it
is not replaced by the default: `int("0") = 0` gets through and the call
returns zero results even though the same store yields one result under the
default `topK` — refuting "no call can request zero results". -/
theorem c10_counterexample :
    searchRespResultCount (searchFieldEntry "courseName"
        [("searchTerm", PyVal.str ['a']), ("topK", PyVal.str ['0'])]
        [[("courseName", PyVal.str ['a'])]]) = some 0
    ∧ searchRespResultCount (searchFieldEntry "courseName"
        [("searchTerm", PyVal.str ['a'])]
        [[("courseName", PyVal.str ['a'])]]) = some 1 := ⟨rfl, rfl⟩

/-- C10 (amended): a caller-supplied *numeric* zero (`0` for
`topK`/`maxScan`, `0` or `0.0` for `minScore`) is falsy, hence treated as
absent and silently replaced by the defaults 5 / 200 / 0.4; a digit string
`"0"` is not (see the counterexample). -/
theorem c10_numeric_zero_is_default (args : PyDict) :
    (dictGet args "topK" = .int 0 →
      pyIntCoerce (pyOr (dictGet args "topK") (.int 5)) = some 5)
    ∧ (dictGet args "maxScan" = .int 0 →
      pyIntCoerce (pyOr (dictGet args "maxScan") (.int 200)) = some 200)
    ∧ (dictGet args "minScore" = .float 0 →
      pyFloatCoerce (pyOr (dictGet args "minScore") (.float (2/5))) = some (2/5))
    ∧ (dictGet args "minScore" = .int 0 →
      pyFloatCoerce (pyOr (dictGet args "minScore") (.float (2/5))) = some (2/5)) := by
  refine ⟨?_, ?_, ?_, ?_⟩ <;> intro h <;>
    simp [pyOr, h, PyVal.truthy, pyIntCoerce, pyFloatCoerce]

/-- Witness for C10 (amended) with all three zero-valued arguments. -/
theorem c10_witness :
    pyIntCoerce (pyOr (dictGet [("topK", PyVal.int 0), ("maxScan", PyVal.int 0),
        ("minScore", PyVal.float 0)] "topK") (.int 5)) = some 5
    ∧ pyIntCoerce (pyOr (dictGet [("topK", PyVal.int 0), ("maxScan", PyVal.int 0),
        ("minScore", PyVal.float 0)] "maxScan") (.int 200)) = some 200
    ∧ pyFloatCoerce (pyOr (dictGet [("topK", PyVal.int 0), ("maxScan", PyVal.int 0),
        ("minScore", PyVal.float 0)] "minScore") (.float (2/5))) = some (2/5)
    ∧ pyFloatCoerce (pyOr (dictGet [("minScore", PyVal.int 0)] "minScore")
        (.float (2/5))) = some (2/5) :=
  ⟨(c10_numeric_zero_is_default [("topK", PyVal.int 0), ("maxScan", PyVal.int 0),
      ("minScore", PyVal.float 0)]).1 rfl,
   (c10_numeric_zero_is_default [("topK", PyVal.int 0), ("maxScan", PyVal.int 0),
      ("minScore", PyVal.float 0)]).2.1 rfl,
   (c10_numeric_zero_is_default [("topK", PyVal.int 0), ("maxScan", PyVal.int 0),
      ("minScore", PyVal.float 0)]).2.2.1 rfl,
   (c10_numeric_zero_is_default [("minScore", PyVal.int 0)]).2.2.2 rfl⟩
